import Mathlib

/-!
Shallow embedding of the dislikes feature of `software-engineering-node`:
the `DislikeDao` store operations (src/daos/DislikeDao.ts), the mongoose
`DislikeSchema` document shape (src/unnamed/part_000) and the
`DislikeController` request handlers (src/controllers/DislikeController.ts).

The MongoDB `dislikes` collection is embedded as a `List Dislike` in
insertion order: `DislikeModel.create` appends, `DislikeModel.findOne`
returns the first match, `DislikeModel.deleteOne` removes the first match,
`DislikeModel.count` is the length of the filtered list.  The tuits
collection is an association list from tuit id to tuit document.  The
`TuitDao` used by the controller is not part of the given sources, so its
two operations are modelled from the spec (see their doc comments).
-/

abbrev UserId := String

abbrev TuitId := String

/-- The `Dislike` document shape from `DislikeSchema` (src/unnamed/part_000):
one edge `{tuit, dislikedBy}` per record, collection "dislikes".  The schema
declares no unique index on the pair. -/
structure Dislike where
  tuit : TuitId
  dislikedBy : UserId
deriving DecidableEq

/-- The `stats` sub-document of a tuit, as used by the controller
(`tuit.stats.dislikes`); the counter is a JS number, embedded as `Int`. -/
structure TuitStats where
  dislikes : Int
deriving DecidableEq

/-- A tuit document, reduced to the field the dislikes feature touches. -/
structure Tuit where
  stats : TuitStats
deriving DecidableEq

/-- The persistent state the feature reads and writes: the `dislikes`
collection and the tuits collection (id-keyed association list). -/
structure DBState where
  dislikes : List Dislike
  tuits : List (TuitId × Tuit)
deriving DecidableEq

/-- `DislikeDao.findAllUsersThatDislikedTuit`:
`DislikeModel.find({tuit: tid})` — all dislike documents of the tuit. -/
def DislikeDao.findAllUsersThatDislikedTuit (dislikes : List Dislike) (tid : TuitId) :
    List Dislike :=
  dislikes.filter (fun d => d.tuit == tid)

/-- `DislikeDao.findUserDislikesTuit`:
`DislikeModel.findOne({tuit: tid, dislikedBy: uid})` — first matching edge
or absent. -/
def DislikeDao.findUserDislikesTuit (dislikes : List Dislike) (uid : UserId)
    (tid : TuitId) : Option Dislike :=
  dislikes.find? (fun d => d.tuit == tid && d.dislikedBy == uid)

/-- `DislikeDao.userUnDislikesTuit`:
`DislikeModel.deleteOne({tuit: tid, dislikedBy: uid})` — removes the first
matching edge, at most one document per call. -/
def DislikeDao.userUnDislikesTuit : List Dislike → UserId → TuitId → List Dislike
  | [], _, _ => []
  | d :: rest, uid, tid =>
    if d.tuit == tid && d.dislikedBy == uid then rest
    else d :: DislikeDao.userUnDislikesTuit rest uid tid

/-- `DislikeDao.userDislikesTuit`:
`DislikeModel.create({tuit: tid, dislikedBy: uid})` — unconditionally
inserts a new edge document (no uniqueness check, no unique index). -/
def DislikeDao.userDislikesTuit (dislikes : List Dislike) (uid : UserId)
    (tid : TuitId) : List Dislike :=
  dislikes ++ [⟨tid, uid⟩]

/-- `DislikeDao.countHowManyDislikedTuit`:
`DislikeModel.count({tuit: tid})` — the authoritative edge count. -/
def DislikeDao.countHowManyDislikedTuit (dislikes : List Dislike) (tid : TuitId) : Nat :=
  (dislikes.filter (fun d => d.tuit == tid)).length

/-- A dislike document after `.populate("tuit")`: the referenced tuit, or
`none` when the reference no longer resolves (dangling edge). -/
structure PopulatedDislike where
  tuit : Option Tuit
  dislikedBy : UserId
deriving DecidableEq

/-- Modelled from the spec: `TuitDao.findTuitById` (TuitDao.ts is not among
the given sources) — the point lookup of an Item by primary key used in
step 3 of the toggle; absent when the referenced item does not resolve. -/
def TuitDao.findTuitById (tuits : List (TuitId × Tuit)) (tid : TuitId) : Option Tuit :=
  (tuits.find? (fun p => p.1 == tid)).map Prod.snd

/-- Modelled from the spec: `TuitDao.updateDislikes` (TuitDao.ts is not among
the given sources) — the Item Counter Updater: writes a new stats value to
the item's cached statistics; a no-op when the item is absent. -/
def TuitDao.updateDislikes (tuits : List (TuitId × Tuit)) (tid : TuitId)
    (stats : TuitStats) : List (TuitId × Tuit) :=
  tuits.map (fun p => if p.1 == tid then (p.1, ⟨stats⟩) else p)

/-- `DislikeDao.findAllTuitsDislikedByUser`:
`DislikeModel.find({dislikedBy: uid}).populate("tuit")` — the user's dislike
documents with the referenced tuit resolved (null when dangling). -/
def DislikeDao.findAllTuitsDislikedByUser (db : DBState) (uid : UserId) :
    List PopulatedDislike :=
  (db.dislikes.filter (fun d => d.dislikedBy == uid)).map
    (fun d => ⟨TuitDao.findTuitById db.tuits d.tuit, d.dislikedBy⟩)

/-- HTTP outcome of the toggle handler: `sendStatus(200)`, `sendStatus(403)`
or `sendStatus(404)`. -/
inductive ToggleResult where
  | ok
  | forbidden
  | notFound
deriving DecidableEq

/-- Outcome of `userAlreadyDislikedTuit`: 403, or the JSON body
(`null` for no edge). -/
inductive StatusResult where
  | forbidden
  | json (d : Option Dislike)
deriving DecidableEq

/-- Outcome of the controller's `findAllUsersThatDislikedTuit`. -/
inductive DislikersResult where
  | forbidden
  | json (dislikes : List Dislike)
deriving DecidableEq

/-- Outcome of the controller's `findAllTuitsDislikedByUser`. -/
inductive TuitsResult where
  | forbidden
  | json (tuits : List Tuit)
deriving DecidableEq

/-- One store access performed by a handler, recorded in order; used to state
that an aborted handler touches the store not at all and that a failed toggle
never reaches the counter write. -/
inductive StoreAccess where
  | findUserDislikesTuit (uid : UserId) (tid : TuitId)
  | countHowManyDislikedTuit (tid : TuitId)
  | findTuitById (tid : TuitId)
  | userUnDislikesTuit (uid : UserId) (tid : TuitId)
  | userDislikesTuit (uid : UserId) (tid : TuitId)
  | updateDislikes (tid : TuitId)
deriving DecidableEq

/-- The counter value the toggle writes (DislikeController.ts lines 112-117):
`howManyDislikedTuit - 1` when the user already disliked the tuit,
`howManyDislikedTuit + 1` otherwise.  The subtraction is not clamped. -/
def computeNewDislikeCount (userAlreadyDislikedTuit : Bool)
    (howManyDislikedTuit : Int) : Int :=
  if userAlreadyDislikedTuit then howManyDislikedTuit - 1
  else howManyDislikedTuit + 1

/-- `DislikeController.userTogglesTuitDislikes`: the toggle handler.  `uid`
is the `:uid` path parameter ("me" is the self alias), `profile` the session
profile.  Mirrors the source order: presence check, authoritative count,
tuit lookup, edge write, then the `tuit.stats` access — which throws when
the tuit did not resolve, so the edge write persists while the counter write
is never reached and 404 is sent. -/
def DislikeController.userTogglesTuitDislikes (db : DBState) (uid : String)
    (tid : TuitId) (profile : Option UserId) :
    ToggleResult × DBState × List StoreAccess :=
  if uid == "me" && profile.isNone then (.forbidden, db, [])
  else
    let userId := match profile with
      | some p => if uid == "me" then p else uid
      | none => uid
    let userAlreadyDislikedTuit := DislikeDao.findUserDislikesTuit db.dislikes userId tid
    let howManyDislikedTuit := DislikeDao.countHowManyDislikedTuit db.dislikes tid
    let tuit := TuitDao.findTuitById db.tuits tid
    let reads := [StoreAccess.findUserDislikesTuit userId tid,
                  StoreAccess.countHowManyDislikedTuit tid,
                  StoreAccess.findTuitById tid]
    if userAlreadyDislikedTuit.isSome then
      let dislikes1 := DislikeDao.userUnDislikesTuit db.dislikes userId tid
      match tuit with
      | none => (.notFound, ⟨dislikes1, db.tuits⟩,
                 reads ++ [StoreAccess.userUnDislikesTuit userId tid])
      | some _ =>
        let newStats : TuitStats :=
          ⟨computeNewDislikeCount true (howManyDislikedTuit : Int)⟩
        (.ok, ⟨dislikes1, TuitDao.updateDislikes db.tuits tid newStats⟩,
         reads ++ [StoreAccess.userUnDislikesTuit userId tid,
                   StoreAccess.updateDislikes tid])
    else
      let dislikes1 := DislikeDao.userDislikesTuit db.dislikes userId tid
      match tuit with
      | none => (.notFound, ⟨dislikes1, db.tuits⟩,
                 reads ++ [StoreAccess.userDislikesTuit userId tid])
      | some _ =>
        let newStats : TuitStats :=
          ⟨computeNewDislikeCount false (howManyDislikedTuit : Int)⟩
        (.ok, ⟨dislikes1, TuitDao.updateDislikes db.tuits tid newStats⟩,
         reads ++ [StoreAccess.userDislikesTuit userId tid,
                   StoreAccess.updateDislikes tid])

/-- `DislikeController.userAlreadyDislikedTuit`: the dislike-status check.
Aborts with 403 on an unauthenticated "me", otherwise a pure read. -/
def DislikeController.userAlreadyDislikedTuit (db : DBState) (uid : String)
    (tid : TuitId) (profile : Option UserId) :
    StatusResult × DBState × List StoreAccess :=
  if uid == "me" && profile.isNone then (.forbidden, db, [])
  else
    let userId := match profile with
      | some p => if uid == "me" then p else uid
      | none => uid
    (.json (DislikeDao.findUserDislikesTuit db.dislikes userId tid), db,
     [StoreAccess.findUserDislikesTuit userId tid])

/-- `DislikeController.findAllUsersThatDislikedTuit`: lists the dislike
records of a tuit.  The handler reads only `req.params.tid`; the session is
received but never consulted. -/
def DislikeController.findAllUsersThatDislikedTuit (db : DBState) (tid : TuitId)
    (session : Option UserId) : DislikersResult × DBState :=
  (.json (DislikeDao.findAllUsersThatDislikedTuit db.dislikes tid), db)

/-- `DislikeController.findAllTuitsDislikedByUser`: lists the tuits a user
disliked, dropping populated records whose tuit is null
(`dislikes.filter(dislike => dislike.tuit)`) and then projecting the tuit
(`.map(dislike => dislike.tuit)`, embedded as `filterMap` since every
remaining tuit is present). -/
def DislikeController.findAllTuitsDislikedByUser (db : DBState) (uid : String)
    (profile : Option UserId) : TuitsResult × DBState :=
  if uid == "me" && profile.isNone then (.forbidden, db)
  else
    let userId := match profile with
      | some p => if uid == "me" then p else uid
      | none => uid
    let dislikes := DislikeDao.findAllTuitsDislikedByUser db userId
    let dislikesNonNullTuits := dislikes.filter (fun d => d.tuit.isSome)
    let tuitsFromDislikes := dislikesNonNullTuits.filterMap (fun d => d.tuit)
    (.json tuitsFromDislikes, db)

/-- Number of edges the store holds for one (actor, item) pair. -/
def pairCount (dislikes : List Dislike) (uid : UserId) (tid : TuitId) : Nat :=
  (dislikes.filter (fun d => d.tuit == tid && d.dislikedBy == uid)).length

/-- Two successive toggles for the same pair, by the same caller. -/
def doubleToggle (db : DBState) (uid : String) (tid : TuitId)
    (profile : Option UserId) : DBState :=
  (DislikeController.userTogglesTuitDislikes
    (DislikeController.userTogglesTuitDislikes db uid tid profile).2.1
    uid tid profile).2.1

/-- Sequential execution of toggle requests, each completing before the next
begins (no interleaving); requests carry a concrete uid, no session. -/
def toggleSeq (db : DBState) : List (String × TuitId) → DBState
  | [] => db
  | (uid, tid) :: rest =>
    toggleSeq (DislikeController.userTogglesTuitDislikes db uid tid none).2.1 rest

/-- Whether every toggle in the sequence completes with 200, each judged in
the state its predecessors produced. -/
def allOkB (db : DBState) : List (String × TuitId) → Bool
  | [] => true
  | (uid, tid) :: rest =>
    if (DislikeController.userTogglesTuitDislikes db uid tid none).1 = ToggleResult.ok
    then allOkB (DislikeController.userTogglesTuitDislikes db uid tid none).2.1 rest
    else false

/-- The counter-correctness invariant: every stored tuit's cached dislike
counter equals the authoritative edge count for that tuit. -/
abbrev Consistent (db : DBState) : Prop :=
  ∀ p ∈ db.tuits, p.2.stats.dislikes =
    (DislikeDao.countHowManyDislikedTuit db.dislikes p.1 : Int)

/-- A store state holding two edge documents for the same (actor, item)
pair — a shape the schema does not rule out — with the cached counter 2. -/
def dbDup : DBState := ⟨[⟨"t1", "u1"⟩, ⟨"t1", "u1"⟩], [("t1", ⟨⟨2⟩⟩)]⟩

/-- One edge for ("u1", "t1") and the matching tuit with cached counter 1. -/
def dbOne : DBState := ⟨[⟨"t1", "u1"⟩], [("t1", ⟨⟨1⟩⟩)]⟩

/-- One unrelated edge and no tuit documents at all. -/
def dbNoTuit : DBState := ⟨[⟨"t2", "u9"⟩], []⟩

/-- An empty edge set with one tuit whose cached counter is 0. -/
def dbEmpty : DBState := ⟨[], [("t1", ⟨⟨0⟩⟩)]⟩

/-- A resolving edge and a dangling edge (tuit "tGone" has no document). -/
def dbDangling : DBState := ⟨[⟨"t1", "u1"⟩, ⟨"tGone", "u1"⟩], [("t1", ⟨⟨5⟩⟩)]⟩

/-- Three toggle requests: two distinct actors dislike "t1", then the first
actor toggles again. -/
def reqsSample : List (String × TuitId) := [("u1", "t1"), ("u2", "t1"), ("u1", "t1")]

/-- A dislike document matches the `{tuit: tid, dislikedBy: uid}` query
exactly when it is the edge for that pair. -/
theorem dislike_match_iff (d : Dislike) (uid : UserId) (tid : TuitId) :
    (d.tuit == tid && d.dislikedBy == uid) = true ↔ d = ⟨tid, uid⟩ := by
  cases d
  simp [Dislike.mk.injEq, and_comm]

/-- `findOne` for a pair succeeds exactly when the store holds at least one
edge for the pair. -/
theorem findUserDislikesTuit_isSome_iff (l : List Dislike) (uid : UserId) (tid : TuitId) :
    (DislikeDao.findUserDislikesTuit l uid tid).isSome = true ↔
      0 < pairCount l uid tid := by
  simp [DislikeDao.findUserDislikesTuit, pairCount, List.find?_isSome,
    List.length_pos_iff_exists_mem, List.mem_filter]

/-- `findOne` for a pair fails exactly when the edge for the pair is not in
the store. -/
theorem findUserDislikesTuit_eq_none_iff (l : List Dislike) (uid : UserId) (tid : TuitId) :
    DislikeDao.findUserDislikesTuit l uid tid = none ↔ (⟨tid, uid⟩ : Dislike) ∉ l := by
  simp only [DislikeDao.findUserDislikesTuit, List.find?_eq_none]
  constructor
  · intro h hmem
    exact h _ hmem (by simp)
  · intro h d hd hmatch
    exact h (((dislike_match_iff d uid tid).mp hmatch) ▸ hd)

/-- `deleteOne` yields a sublist of the collection. -/
theorem userUnDislikesTuit_sublist (l : List Dislike) (uid : UserId) (tid : TuitId) :
    List.Sublist (DislikeDao.userUnDislikesTuit l uid tid) l := by
  induction l with
  | nil => simp [DislikeDao.userUnDislikesTuit]
  | cons d rest ih =>
    rw [DislikeDao.userUnDislikesTuit]
    split
    · exact List.sublist_cons_self d rest
    · exact List.Sublist.cons₂ d ih

/-- When `findOne` misses, `deleteOne` leaves the collection unchanged. -/
theorem userUnDislikesTuit_of_not_found (l : List Dislike) (uid : UserId) (tid : TuitId)
    (h : DislikeDao.findUserDislikesTuit l uid tid = none) :
    DislikeDao.userUnDislikesTuit l uid tid = l := by
  induction l with
  | nil => rfl
  | cons d rest ih =>
    rw [DislikeDao.findUserDislikesTuit, List.find?] at h
    rw [DislikeDao.userUnDislikesTuit]
    cases hm : (d.tuit == tid && d.dislikedBy == uid) with
    | true => rw [hm] at h; exact absurd h (by simp)
    | false =>
      rw [hm] at h
      simp only [hm, if_neg Bool.false_ne_true, List.cons.injEq, true_and]
      exact ih h

/-- A present pair contributes to the authoritative count of its tuit. -/
theorem count_pos_of_found (l : List Dislike) (uid : UserId) (tid : TuitId)
    (h : (DislikeDao.findUserDislikesTuit l uid tid).isSome = true) :
    1 ≤ DislikeDao.countHowManyDislikedTuit l tid := by
  induction l with
  | nil => simp [DislikeDao.findUserDislikesTuit] at h
  | cons d rest ih =>
    rw [DislikeDao.findUserDislikesTuit, List.find?] at h
    rw [DislikeDao.countHowManyDislikedTuit, List.filter]
    cases hm : (d.tuit == tid && d.dislikedBy == uid) with
    | true =>
      have ht : (d.tuit == tid) = true := (Bool.and_eq_true _ _ |>.mp hm).1
      simp [ht]
    | false =>
      rw [hm] at h
      cases ht : (d.tuit == tid) with
      | true => simp [ht]
      | false => simpa [ht, DislikeDao.countHowManyDislikedTuit] using ih h

/-- Deleting a present pair edge lowers the tuit's authoritative count by
exactly one. -/
theorem count_userUnDislikesTuit_self (l : List Dislike) (uid : UserId) (tid : TuitId)
    (h : (DislikeDao.findUserDislikesTuit l uid tid).isSome = true) :
    DislikeDao.countHowManyDislikedTuit (DislikeDao.userUnDislikesTuit l uid tid) tid =
      DislikeDao.countHowManyDislikedTuit l tid - 1 := by
  induction l with
  | nil => simp [DislikeDao.findUserDislikesTuit] at h
  | cons d rest ih =>
    rw [DislikeDao.findUserDislikesTuit, List.find?] at h
    rw [DislikeDao.userUnDislikesTuit]
    cases hm : (d.tuit == tid && d.dislikedBy == uid) with
    | true =>
      have ht : (d.tuit == tid) = true := (Bool.and_eq_true _ _ |>.mp hm).1
      simp [DislikeDao.countHowManyDislikedTuit, List.filter, ht]
    | false =>
      rw [hm] at h
      have h1 := count_pos_of_found rest uid tid h
      have ih1 := ih h
      simp only [if_neg Bool.false_ne_true]
      cases ht : (d.tuit == tid) with
      | true =>
        simp only [DislikeDao.countHowManyDislikedTuit, List.filter, ht,
          List.length_cons] at ih1 h1 ⊢
        omega
      | false =>
        simpa [DislikeDao.countHowManyDislikedTuit, List.filter, ht] using ih1

/-- Deleting a pair edge never changes the authoritative count of another
tuit. -/
theorem count_userUnDislikesTuit_ne (l : List Dislike) (uid : UserId) (tid t : TuitId)
    (h : t ≠ tid) :
    DislikeDao.countHowManyDislikedTuit (DislikeDao.userUnDislikesTuit l uid tid) t =
      DislikeDao.countHowManyDislikedTuit l t := by
  induction l with
  | nil => rfl
  | cons d rest ih =>
    rw [DislikeDao.userUnDislikesTuit]
    cases hm : (d.tuit == tid && d.dislikedBy == uid) with
    | true =>
      have ht : d.tuit = tid := by
        have := (Bool.and_eq_true _ _ |>.mp hm).1
        exact beq_iff_eq.mp this
      have hnt : (d.tuit == t) = false := by
        rw [ht]; exact beq_eq_false_iff_ne.mpr (fun hh => h hh.symm)
      simp [DislikeDao.countHowManyDislikedTuit, List.filter, hnt]
    | false =>
      simp only [if_neg Bool.false_ne_true]
      cases ht : (d.tuit == t) with
      | true => simp only [DislikeDao.countHowManyDislikedTuit, List.filter, ht] at ih ⊢; simp [ih]
      | false => simpa [DislikeDao.countHowManyDislikedTuit, List.filter, ht] using ih

/-- Deleting a pair edge lowers the pair's own edge count by one. -/
theorem pairCount_userUnDislikesTuit_self (l : List Dislike) (uid : UserId) (tid : TuitId) :
    pairCount (DislikeDao.userUnDislikesTuit l uid tid) uid tid =
      pairCount l uid tid - 1 := by
  induction l with
  | nil => rfl
  | cons d rest ih =>
    rw [DislikeDao.userUnDislikesTuit]
    cases hm : (d.tuit == tid && d.dislikedBy == uid) with
    | true => simp [pairCount, List.filter, hm]
    | false =>
      simp only [if_neg Bool.false_ne_true]
      simpa [pairCount, List.filter, hm] using ih

/-- Inserting the pair edge raises the tuit's authoritative count by one. -/
theorem count_userDislikesTuit_self (l : List Dislike) (uid : UserId) (tid : TuitId) :
    DislikeDao.countHowManyDislikedTuit (DislikeDao.userDislikesTuit l uid tid) tid =
      DislikeDao.countHowManyDislikedTuit l tid + 1 := by
  simp [DislikeDao.countHowManyDislikedTuit, DislikeDao.userDislikesTuit,
    List.filter_append]

/-- Inserting a pair edge never changes the authoritative count of another
tuit. -/
theorem count_userDislikesTuit_ne (l : List Dislike) (uid : UserId) (tid t : TuitId)
    (h : t ≠ tid) :
    DislikeDao.countHowManyDislikedTuit (DislikeDao.userDislikesTuit l uid tid) t =
      DislikeDao.countHowManyDislikedTuit l t := by
  have : ((⟨tid, uid⟩ : Dislike).tuit == t) = false :=
    beq_eq_false_iff_ne.mpr (fun hh => h hh.symm)
  simp [DislikeDao.countHowManyDislikedTuit, DislikeDao.userDislikesTuit,
    List.filter_append, this]

/-- Inserting the pair edge raises the pair's own edge count by one. -/
theorem pairCount_userDislikesTuit_self (l : List Dislike) (uid : UserId) (tid : TuitId) :
    pairCount (DislikeDao.userDislikesTuit l uid tid) uid tid =
      pairCount l uid tid + 1 := by
  simp [pairCount, DislikeDao.userDislikesTuit, List.filter_append]

/-- Deleting the pair edge right after inserting it restores the collection,
provided the pair was absent before the insert. -/
theorem userUnDislikesTuit_append (l : List Dislike) (uid : UserId) (tid : TuitId)
    (h : DislikeDao.findUserDislikesTuit l uid tid = none) :
    DislikeDao.userUnDislikesTuit (DislikeDao.userDislikesTuit l uid tid) uid tid = l := by
  induction l with
  | nil => simp [DislikeDao.userDislikesTuit, DislikeDao.userUnDislikesTuit]
  | cons d rest ih =>
    rw [DislikeDao.findUserDislikesTuit, List.find?] at h
    cases hm : (d.tuit == tid && d.dislikedBy == uid) with
    | true => rw [hm] at h; exact absurd h (by simp)
    | false =>
      rw [hm] at h
      have := ih h
      simp only [DislikeDao.userDislikesTuit, List.cons_append,
        DislikeDao.userUnDislikesTuit, hm, if_neg Bool.false_ne_true,
        List.cons.injEq, true_and]
      simpa [DislikeDao.userDislikesTuit] using this

/-- A pair's edge count never exceeds its tuit's authoritative count. -/
theorem pairCount_le_count (l : List Dislike) (uid : UserId) (tid : TuitId) :
    pairCount l uid tid ≤ DislikeDao.countHowManyDislikedTuit l tid := by
  induction l with
  | nil => simp [pairCount, DislikeDao.countHowManyDislikedTuit]
  | cons d rest ih =>
    simp only [pairCount, DislikeDao.countHowManyDislikedTuit, List.filter] at ih ⊢
    cases hm : (d.tuit == tid && d.dislikedBy == uid) with
    | true =>
      have ht : (d.tuit == tid) = true := (Bool.and_eq_true _ _ |>.mp hm).1
      simp [ht]; omega
    | false =>
      cases ht : (d.tuit == tid) with
      | true => simp [ht]; omega
      | false => simpa using ih

/-- After the Item Counter Updater runs, the item's lookup yields the tuit
with exactly the written stats. -/
theorem findTuitById_updateDislikes_self (ts : List (TuitId × Tuit)) (tid : TuitId)
    (st : TuitStats) (tu : Tuit) (h : TuitDao.findTuitById ts tid = some tu) :
    TuitDao.findTuitById (TuitDao.updateDislikes ts tid st) tid = some ⟨st⟩ := by
  induction ts with
  | nil => simp [TuitDao.findTuitById] at h
  | cons p rest ih =>
    rw [TuitDao.findTuitById, List.find?] at h
    rw [TuitDao.updateDislikes, List.map]
    cases hm : (p.1 == tid) with
    | true =>
      simp only [hm, if_pos rfl]
      simp [TuitDao.findTuitById, List.find?, hm]
    | false =>
      rw [hm] at h
      simp only [hm, if_neg Bool.false_ne_true]
      rw [TuitDao.findTuitById, List.find?, hm]
      exact ih (by rw [TuitDao.findTuitById]; exact h)

/-- With a concrete uid and no session, the edge-set component of the toggle
outcome depends only on the presence check: deleteOne when present, create
when absent — whether or not the tuit resolves. -/
theorem toggle_dislikes_eq (db : DBState) (uid : String) (tid : TuitId)
    (hme : uid ≠ "me") :
    (DislikeController.userTogglesTuitDislikes db uid tid none).2.1.dislikes =
      if (DislikeDao.findUserDislikesTuit db.dislikes uid tid).isSome
      then DislikeDao.userUnDislikesTuit db.dislikes uid tid
      else DislikeDao.userDislikesTuit db.dislikes uid tid := by
  cases htu : TuitDao.findTuitById db.tuits tid <;>
  cases hfound : (DislikeDao.findUserDislikesTuit db.dislikes uid tid).isSome <;>
  simp [DislikeController.userTogglesTuitDislikes, hme, htu, hfound]

/-- Successful toggle of a present edge: the store loses the first pair edge
and the tuit's cached stats receive the unclamped `count - 1`. -/
theorem toggle_state_ok (db : DBState) (uid : String) (tid : TuitId) (tu : Tuit)
    (hme : uid ≠ "me") (htu : TuitDao.findTuitById db.tuits tid = some tu)
    (hfound : (DislikeDao.findUserDislikesTuit db.dislikes uid tid).isSome = true) :
    (DislikeController.userTogglesTuitDislikes db uid tid none).2.1 =
      ⟨DislikeDao.userUnDislikesTuit db.dislikes uid tid,
       TuitDao.updateDislikes db.tuits tid
         ⟨(DislikeDao.countHowManyDislikedTuit db.dislikes tid : Int) - 1⟩⟩ := by
  simp [DislikeController.userTogglesTuitDislikes, hme, htu, hfound,
    computeNewDislikeCount]

/-- C1 counterexample: the computation the toggle applies to the counter when
the edge is present performs no clamping — at authoritative count 0 it
produces -1, a negative value, contradicting the claimed floor at 0. -/
theorem claim_C1_counterexample :
    computeNewDislikeCount true 0 = -1 ∧ computeNewDislikeCount true 0 < 0 := by
  decide

/-- C1 (amended): when the edge is present and the tuit resolves, the counter
written to the item is the authoritative pre-toggle count minus 1 with no
clamping; the written value is nevertheless non-negative because a present
edge itself contributes to the authoritative count, which is therefore at
least 1.  (With presence observed but count 0 — a combination one consistent
snapshot cannot produce — the code would write -1; see the counterexample.) -/
theorem claim_C1 (db : DBState) (uid : String) (tid : TuitId) (tu : Tuit)
    (hme : uid ≠ "me")
    (hfound : (DislikeDao.findUserDislikesTuit db.dislikes uid tid).isSome = true)
    (htu : TuitDao.findTuitById db.tuits tid = some tu) :
    TuitDao.findTuitById
        (DislikeController.userTogglesTuitDislikes db uid tid none).2.1.tuits tid =
      some ⟨⟨(DislikeDao.countHowManyDislikedTuit db.dislikes tid : Int) - 1⟩⟩ ∧
    0 ≤ (DislikeDao.countHowManyDislikedTuit db.dislikes tid : Int) - 1 := by
  have hstate := toggle_state_ok db uid tid tu hme htu hfound
  constructor
  · rw [hstate]
    exact findTuitById_updateDislikes_self db.tuits tid _ tu htu
  · have h1 := count_pos_of_found db.dislikes uid tid hfound
    omega

/-- C1 witness: one edge for ("u1", "t1"), count 1; the toggle writes 0. -/
theorem claim_C1_witness :
    TuitDao.findTuitById
        (DislikeController.userTogglesTuitDislikes dbOne "u1" "t1" none).2.1.tuits "t1" =
      some ⟨⟨(DislikeDao.countHowManyDislikedTuit dbOne.dislikes "t1" : Int) - 1⟩⟩ ∧
    0 ≤ (DislikeDao.countHowManyDislikedTuit dbOne.dislikes "t1" : Int) - 1 :=
  claim_C1 dbOne "u1" "t1" ⟨⟨1⟩⟩ (by decide) (by decide) (by decide)

/-- C2 counterexample: the store's create operation does not fail when an
edge for the pair already exists — it inserts a second edge document for the
same pair. -/
theorem claim_C2_counterexample :
    DislikeDao.userDislikesTuit [⟨"t1", "u1"⟩] "u1" "t1" =
      [⟨"t1", "u1"⟩, ⟨"t1", "u1"⟩] ∧
    pairCount (DislikeDao.userDislikesTuit [⟨"t1", "u1"⟩] "u1" "t1") "u1" "t1" = 2 := by
  decide

/-- C2 (amended): the store's create inserts unconditionally (neither the DAO
nor the schema rejects a duplicate pair); the at-most-one-edge-per-pair
invariant is instead maintained by the toggle engine, which creates only
after its presence check misses: a toggle of a duplicate-free store leaves
it duplicate-free. -/
theorem claim_C2 (db : DBState) (uid : String) (tid : TuitId) (hme : uid ≠ "me")
    (h : db.dislikes.Nodup) :
    ((DislikeController.userTogglesTuitDislikes db uid tid none).2.1.dislikes).Nodup := by
  rw [toggle_dislikes_eq db uid tid hme]
  by_cases hf : (DislikeDao.findUserDislikesTuit db.dislikes uid tid).isSome = true
  · rw [if_pos hf]
    exact (userUnDislikesTuit_sublist db.dislikes uid tid).nodup h
  · rw [if_neg hf]
    have hnone : DislikeDao.findUserDislikesTuit db.dislikes uid tid = none :=
      Option.not_isSome_iff_eq_none.mp hf
    have hnotmem := (findUserDislikesTuit_eq_none_iff _ _ _).mp hnone
    simp [DislikeDao.userDislikesTuit, List.nodup_append, h, hnotmem]

/-- C2 witness: a fresh actor toggles a duplicate-free store; still
duplicate-free afterwards. -/
theorem claim_C2_witness :
    ((DislikeController.userTogglesTuitDislikes dbOne "u2" "t1" none).2.1.dislikes).Nodup :=
  claim_C2 dbOne "u2" "t1" (by decide) (by decide)

/-- C3 counterexample: toggling a missing item does report 404, but the edge
is created before the failure is detected — the edge set is changed by the
failed toggle. -/
theorem claim_C3_counterexample :
    (DislikeController.userTogglesTuitDislikes ⟨[], []⟩ "u1" "t1" none).1 =
      ToggleResult.notFound ∧
    (DislikeController.userTogglesTuitDislikes ⟨[], []⟩ "u1" "t1" none).2.1.dislikes =
      [⟨"t1", "u1"⟩] := by
  decide

/-- C3 (amended): toggling an item id that does not resolve reports NotFound
and attempts no counter write (the tuits collection is unchanged and the
updater is never invoked), but the edge write precedes the failure: with no
prior edge, the failed toggle leaves the pair's edge created in the store. -/
theorem claim_C3 (db : DBState) (uid : String) (tid : TuitId) (hme : uid ≠ "me")
    (htu : TuitDao.findTuitById db.tuits tid = none)
    (hfound : DislikeDao.findUserDislikesTuit db.dislikes uid tid = none) :
    DislikeController.userTogglesTuitDislikes db uid tid none =
      (ToggleResult.notFound,
       ⟨DislikeDao.userDislikesTuit db.dislikes uid tid, db.tuits⟩,
       [StoreAccess.findUserDislikesTuit uid tid,
        StoreAccess.countHowManyDislikedTuit tid,
        StoreAccess.findTuitById tid,
        StoreAccess.userDislikesTuit uid tid]) := by
  simp [DislikeController.userTogglesTuitDislikes, hme, htu, hfound]

/-- C3 witness: an unrelated edge, no tuit documents; the toggle 404s, writes
no counter, and leaves the new edge behind. -/
theorem claim_C3_witness :
    DislikeController.userTogglesTuitDislikes dbNoTuit "u1" "t1" none =
      (ToggleResult.notFound,
       ⟨DislikeDao.userDislikesTuit dbNoTuit.dislikes "u1" "t1", dbNoTuit.tuits⟩,
       [StoreAccess.findUserDislikesTuit "u1" "t1",
        StoreAccess.countHowManyDislikedTuit "t1",
        StoreAccess.findTuitById "t1",
        StoreAccess.userDislikesTuit "u1" "t1"]) :=
  claim_C3 dbNoTuit "u1" "t1" (by decide) (by decide) (by decide)

/-- C9: the un-dislike step removes at most one edge document: with n > 1
edges stored for the pair, at least n - 1 remain after the toggle, and the
pair is still observed as disliked — one toggle does not clear a duplicated
pair. -/
theorem claim_C9 (db : DBState) (uid : String) (tid : TuitId) (hme : uid ≠ "me")
    (hn : 1 < pairCount db.dislikes uid tid) :
    pairCount db.dislikes uid tid - 1 ≤
      pairCount (DislikeController.userTogglesTuitDislikes db uid tid none).2.1.dislikes
        uid tid ∧
    (DislikeDao.findUserDislikesTuit
        (DislikeController.userTogglesTuitDislikes db uid tid none).2.1.dislikes
        uid tid).isSome = true := by
  have hfound : (DislikeDao.findUserDislikesTuit db.dislikes uid tid).isSome = true :=
    (findUserDislikesTuit_isSome_iff _ _ _).mpr (by omega)
  have hd := toggle_dislikes_eq db uid tid hme
  rw [if_pos hfound] at hd
  rw [hd]
  have hp := pairCount_userUnDislikesTuit_self db.dislikes uid tid
  exact ⟨by omega, (findUserDislikesTuit_isSome_iff _ _ _).mpr (by omega)⟩

/-- C9 witness: two duplicate edges for the pair; after one toggle one edge
remains and the pair is still disliked. -/
theorem claim_C9_witness :
    pairCount dbDup.dislikes "u1" "t1" - 1 ≤
      pairCount (DislikeController.userTogglesTuitDislikes dbDup "u1" "t1" none).2.1.dislikes
        "u1" "t1" ∧
    (DislikeDao.findUserDislikesTuit
        (DislikeController.userTogglesTuitDislikes dbDup "u1" "t1" none).2.1.dislikes
        "u1" "t1").isSome = true :=
  claim_C9 dbDup "u1" "t1" (by decide) (by decide)

/-- C4 counterexample: from a store state holding two edge documents for the
same pair — a state the schema does not rule out and C9's sources treat as
observable — two successive toggles do not restore the pair: it starts
disliked with authoritative count 2 and ends not-disliked with count 0. -/
theorem claim_C4_counterexample :
    (DislikeDao.findUserDislikesTuit dbDup.dislikes "u1" "t1").isSome = true ∧
    (DislikeDao.findUserDislikesTuit (doubleToggle dbDup "u1" "t1" none).dislikes
        "u1" "t1").isSome = false ∧
    DislikeDao.countHowManyDislikedTuit dbDup.dislikes "t1" = 2 ∧
    DislikeDao.countHowManyDislikedTuit (doubleToggle dbDup "u1" "t1" none).dislikes
        "t1" = 0 := by
  decide

/-- C4 (amended): for every starting state satisfying the at-most-one-edge-
per-pair uniqueness invariant for the toggled pair, two successive toggles
return the pair to its original edge-presence state and the item's
authoritative edge count to its original value. -/
theorem claim_C4 (db : DBState) (uid : String) (tid : TuitId) (hme : uid ≠ "me")
    (huniq : pairCount db.dislikes uid tid ≤ 1) :
    (DislikeDao.findUserDislikesTuit (doubleToggle db uid tid none).dislikes
        uid tid).isSome =
      (DislikeDao.findUserDislikesTuit db.dislikes uid tid).isSome ∧
    DislikeDao.countHowManyDislikedTuit (doubleToggle db uid tid none).dislikes tid =
      DislikeDao.countHowManyDislikedTuit db.dislikes tid := by
  simp only [doubleToggle]
  have hd1 := toggle_dislikes_eq db uid tid hme
  set s1 := (DislikeController.userTogglesTuitDislikes db uid tid none).2.1 with hs1
  have hd2 := toggle_dislikes_eq s1 uid tid hme
  by_cases hf : (DislikeDao.findUserDislikesTuit db.dislikes uid tid).isSome = true
  · -- pair present: delete then re-create
    have hpc1 : pairCount db.dislikes uid tid = 1 := by
      have := (findUserDislikesTuit_isSome_iff db.dislikes uid tid).mp hf
      omega
    rw [if_pos hf] at hd1
    have hpc0 : pairCount s1.dislikes uid tid = 0 := by
      rw [hd1, pairCount_userUnDislikesTuit_self, hpc1]
    have hf2 : ¬ (DislikeDao.findUserDislikesTuit s1.dislikes uid tid).isSome = true := by
      rw [findUserDislikesTuit_isSome_iff, hpc0]
      omega
    rw [if_neg hf2] at hd2
    rw [hd2, hd1]
    have hcnt1 := count_pos_of_found db.dislikes uid tid hf
    have hcnt2 := count_userUnDislikesTuit_self db.dislikes uid tid hf
    constructor
    · rw [hf, findUserDislikesTuit_isSome_iff, pairCount_userDislikesTuit_self]
      omega
    · rw [count_userDislikesTuit_self]
      omega
  · -- pair absent: create then delete restores the exact collection
    have hnone : DislikeDao.findUserDislikesTuit db.dislikes uid tid = none :=
      Option.not_isSome_iff_eq_none.mp hf
    rw [if_neg hf] at hd1
    have hf2 : (DislikeDao.findUserDislikesTuit s1.dislikes uid tid).isSome = true := by
      rw [findUserDislikesTuit_isSome_iff, hd1, pairCount_userDislikesTuit_self]
      omega
    rw [if_pos hf2] at hd2
    rw [hd2, hd1, userUnDislikesTuit_append db.dislikes uid tid hnone]
    exact ⟨rfl, rfl⟩

/-- C4 witness: empty edge set, tuit "t1" present with counter 0; toggling
twice restores absence and count 0. -/
theorem claim_C4_witness :
    (DislikeDao.findUserDislikesTuit (doubleToggle dbEmpty "u1" "t1" none).dislikes
        "u1" "t1").isSome =
      (DislikeDao.findUserDislikesTuit dbEmpty.dislikes "u1" "t1").isSome ∧
    DislikeDao.countHowManyDislikedTuit (doubleToggle dbEmpty "u1" "t1" none).dislikes
        "t1" =
      DislikeDao.countHowManyDislikedTuit dbEmpty.dislikes "t1" :=
  claim_C4 dbEmpty "u1" "t1" (by decide) (by decide)

/-- C6: with the "self" alias and no resolvable identity, both the toggle and
the status check answer 403, leave the state untouched, and perform no store
access at all (empty access trace). -/
theorem claim_C6 (db : DBState) (tid : TuitId) :
    DislikeController.userTogglesTuitDislikes db "me" tid none =
      (ToggleResult.forbidden, db, []) ∧
    DislikeController.userAlreadyDislikedTuit db "me" tid none =
      (StatusResult.forbidden, db, []) :=
  ⟨rfl, rfl⟩

/-- C8: the three query operations are pure reads — the edge set and every
cached counter are unchanged by them, for every input including the "me"
alias paths. -/
theorem claim_C8 (db : DBState) (uid : String) (tid : TuitId)
    (profile sess : Option UserId) :
    (DislikeController.findAllUsersThatDislikedTuit db tid sess).2 = db ∧
    (DislikeController.findAllTuitsDislikedByUser db uid profile).2 = db ∧
    (DislikeController.userAlreadyDislikedTuit db uid tid profile).2.1 = db := by
  refine ⟨rfl, ?_, ?_⟩
  · unfold DislikeController.findAllTuitsDislikedByUser
    split <;> rfl
  · unfold DislikeController.userAlreadyDislikedTuit
    split <;> rfl

/-- C10: listing the dislikers of a tuit never consults the session: any two
session states give identical outcomes, and an Unauthenticated (403) outcome
is impossible. -/
theorem claim_C10 (db : DBState) (tid : TuitId) (sess1 sess2 : Option UserId) :
    DislikeController.findAllUsersThatDislikedTuit db tid sess1 =
      DislikeController.findAllUsersThatDislikedTuit db tid sess2 ∧
    (DislikeController.findAllUsersThatDislikedTuit db tid sess1).1 ≠
      DislikersResult.forbidden := by
  refine ⟨rfl, ?_⟩
  simp [DislikeController.findAllUsersThatDislikedTuit]

/-- Filtering populated records on a non-null tuit and then projecting the
tuit is the same as resolving each raw edge and keeping the hits. -/
theorem populate_filter_project (ts : List (TuitId × Tuit)) (l : List Dislike) :
    ((l.map (fun d => (⟨TuitDao.findTuitById ts d.tuit, d.dislikedBy⟩ :
        PopulatedDislike))).filter (fun d => d.tuit.isSome)).filterMap
      (fun d => d.tuit) =
      l.filterMap (fun d => TuitDao.findTuitById ts d.tuit) := by
  induction l with
  | nil => rfl
  | cons d rest ih =>
    cases hres : TuitDao.findTuitById ts d.tuit with
    | none => simpa [List.filter, hres] using ih
    | some v => simpa [List.filter, List.filterMap, hres] using ih

/-- C7: for a resolved actor, the disliked-items query returns exactly the
items of the actor's edges whose referenced tuit still resolves — dangling
edges are dropped — and the query yields a JSON result (it does not fail). -/
theorem claim_C7 (db : DBState) (uid : String) (profile : Option UserId)
    (hme : uid ≠ "me") :
    DislikeController.findAllTuitsDislikedByUser db uid profile =
      (TuitsResult.json ((db.dislikes.filter (fun d => d.dislikedBy == uid)).filterMap
          (fun d => TuitDao.findTuitById db.tuits d.tuit)), db) := by
  have huid : (uid == "me") = false := beq_eq_false_iff_ne.mpr hme
  cases profile with
  | none =>
    simp only [DislikeController.findAllTuitsDislikedByUser, huid,
      Option.isNone_none, Bool.false_and, Bool.and_true, Bool.false_eq_true,
      if_false, DislikeDao.findAllTuitsDislikedByUser,
      populate_filter_project]
  | some p =>
    simp only [DislikeController.findAllTuitsDislikedByUser, huid,
      Option.isNone_some, Bool.and_false, Bool.false_eq_true, if_false,
      DislikeDao.findAllTuitsDislikedByUser, populate_filter_project]

/-- C7 witness: one resolving edge and one dangling edge; the query returns
just the resolving tuit. -/
theorem claim_C7_witness :
    DislikeController.findAllTuitsDislikedByUser dbDangling "u1" none =
      (TuitsResult.json ((dbDangling.dislikes.filter
            (fun d => d.dislikedBy == "u1")).filterMap
          (fun d => TuitDao.findTuitById dbDangling.tuits d.tuit)), dbDangling) :=
  claim_C7 dbDangling "u1" none (by decide)

/-- Successful toggle of an absent edge: the store gains the pair edge at the
end and the tuit's cached stats receive `count + 1`. -/
theorem toggle_state_ok_absent (db : DBState) (uid : String) (tid : TuitId) (tu : Tuit)
    (hme : uid ≠ "me") (htu : TuitDao.findTuitById db.tuits tid = some tu)
    (hfound : (DislikeDao.findUserDislikesTuit db.dislikes uid tid).isSome = false) :
    (DislikeController.userTogglesTuitDislikes db uid tid none).2.1 =
      ⟨DislikeDao.userDislikesTuit db.dislikes uid tid,
       TuitDao.updateDislikes db.tuits tid
         ⟨(DislikeDao.countHowManyDislikedTuit db.dislikes tid : Int) + 1⟩⟩ := by
  simp [DislikeController.userTogglesTuitDislikes, hme, htu, hfound,
    computeNewDislikeCount]

/-- A toggle that answers 200 preserves the counter-correctness invariant:
the toggled tuit's entries get the freshly recomputed value, which matches
the new edge count, and every other tuit's count and cache are untouched. -/
theorem toggle_preserves_consistent (db : DBState) (uid : String) (tid : TuitId)
    (hok : (DislikeController.userTogglesTuitDislikes db uid tid none).1 =
      ToggleResult.ok)
    (hc : Consistent db) :
    Consistent (DislikeController.userTogglesTuitDislikes db uid tid none).2.1 := by
  by_cases hme : uid = "me"
  · rw [hme] at hok
    simp [DislikeController.userTogglesTuitDislikes] at hok
  cases htu : TuitDao.findTuitById db.tuits tid with
  | none =>
    cases hfound : (DislikeDao.findUserDislikesTuit db.dislikes uid tid).isSome <;>
      simp [DislikeController.userTogglesTuitDislikes, hme, htu, hfound] at hok
  | some tu =>
    cases hfound : (DislikeDao.findUserDislikesTuit db.dislikes uid tid).isSome with
    | true =>
      rw [toggle_state_ok db uid tid tu hme htu hfound]
      intro p hp
      simp only [TuitDao.updateDislikes] at hp
      rcases List.mem_map.mp hp with ⟨q, hq, rfl⟩
      by_cases hk : (q.1 == tid) = true
      · have hkeq : q.1 = tid := beq_iff_eq.mp hk
        rw [if_pos hk]
        have h1 := count_pos_of_found db.dislikes uid tid hfound
        have h2 := count_userUnDislikesTuit_self db.dislikes uid tid hfound
        simp only [hkeq, h2]
        omega
      · rw [if_neg hk]
        have hkne : q.1 ≠ tid := fun hh => hk (beq_iff_eq.mpr hh)
        have h3 := count_userUnDislikesTuit_ne db.dislikes uid tid q.1 hkne
        simp only [h3]
        exact hc q hq
    | false =>
      rw [toggle_state_ok_absent db uid tid tu hme htu hfound]
      intro p hp
      simp only [TuitDao.updateDislikes] at hp
      rcases List.mem_map.mp hp with ⟨q, hq, rfl⟩
      by_cases hk : (q.1 == tid) = true
      · have hkeq : q.1 = tid := beq_iff_eq.mp hk
        rw [if_pos hk]
        have h2 := count_userDislikesTuit_self db.dislikes uid tid
        simp only [hkeq, h2]
        omega
      · rw [if_neg hk]
        have hkne : q.1 ≠ tid := fun hh => hk (beq_iff_eq.mpr hh)
        have h3 := count_userDislikesTuit_ne db.dislikes uid tid q.1 hkne
        simp only [h3]
        exact hc q hq

/-- C5: starting from a state whose cached counters all match the
authoritative edge counts, any finite sequence of toggles executed with no
interleaving and all answering 200 leaves every tuit's cached dislike
counter equal to `countHowManyDislikedTuit` for that tuit. -/
theorem claim_C5 (db : DBState) (reqs : List (String × TuitId))
    (hok : allOkB db reqs = true) (hc : Consistent db) :
    Consistent (toggleSeq db reqs) := by
  induction reqs generalizing db with
  | nil => simpa [toggleSeq] using hc
  | cons r rest ih =>
    obtain ⟨uid, tid⟩ := r
    rw [toggleSeq]
    rw [allOkB] at hok
    split at hok
    · next h =>
        exact ih _ hok (toggle_preserves_consistent db uid tid h hc)
    · exact absurd hok (by simp)

/-- C5 witness: from the consistent state (no edges, counter 0), three
successful toggles — two actors dislike "t1", then the first un-dislikes —
leave the cached counter equal to the authoritative count. -/
theorem claim_C5_witness : Consistent (toggleSeq dbEmpty reqsSample) :=
  claim_C5 dbEmpty reqsSample (by decide) (by decide)
